import Mathlib

/-!
Verification of the meditation-tracking cog (`src/meditation/__init__.py`).

Modelling conventions:
* Absolute instants are integer seconds since an arbitrary epoch, in UTC
  (the reference time zone).  Every boundary in the code — the 07:30:00
  cutoff, 23.5 h, 24 h, 5 min, whole days — falls on a whole second, and
  second-valued differences are represented exactly by the floats the code
  compares, so integer seconds model the `datetime`/float arithmetic exactly.
* Calendar dates are day numbers (`Int`); the date of instant `t` is
  `t / 86400` (`/` and `%` on `Int` are Euclidean division, which agrees
  with Python's floor `//` and `%` for the positive divisors used here).
* The SQLite table `meditation_records (user_id, meditation_date)` with a
  primary key on the pair is a finite set of rows: `Finset (Nat × Int)`.
* External effects are parameters: whether the event-loop lock is held,
  whether the channel resolves, and whether the platform send succeeds.
  A raising send is an `Except.error` of the un-caught body
  `post_daily_body`; the `try/except` wrapper is `post_daily_message`.
-/

namespace Meditation

/-- Calendar date (day number) of a UTC instant: `timestamp.date()`. -/
def dateOf (t : Int) : Int := t / 86400

/-- `t.replace(hour=7, minute=30, second=0, microsecond=0)`: the instant of
07:30:00.000 on the same calendar date as `t`.  Used both as the `cutoff`
in `get_meditation_date` and as `target_time` in the scheduler. -/
def target_time (t : Int) : Int := 86400 * dateOf t + 27000

/-- `t.hour` for a UTC instant. -/
def hourOf (t : Int) : Int := (t % 86400) / 3600

/-- `t.minute` for a UTC instant. -/
def minuteOf (t : Int) : Int := ((t % 86400) % 3600) / 60

/-- `get_meditation_date`: which meditation day a timestamp belongs to,
based on the 7:30 AM GMT cutoff. -/
def get_meditation_date (t : Int) : Int :=
  if t < target_time t then dateOf t - 1 else dateOf t

/-- The persisted settings blob (`settings.json`). -/
structure Settings where
  channel_id : Option Nat
  daily_message : String
  last_post_time : Option Int
  was_first_post : Bool
deriving DecidableEq

/-- `should_post`: decides whether to post, and (since it mutates
`self.settings` in place) also returns the updated settings.
`84600 = 23.5 * 60 * 60` and `86400 = 24 * 60 * 60`. -/
def should_post (s : Settings) (now : Int) : Bool × Settings :=
  match s.last_post_time with
  | none => (true, { s with was_first_post := true })
  | some last_post =>
    if s.was_first_post then
      if target_time now ≤ now ∧ last_post < target_time now then
        (true, { s with was_first_post := false })
      else
        (false, s)
    else if now - last_post < 84600 then
      (false, s)
    else if target_time now ≤ now ∧ last_post < target_time now then
      (true, s)
    else if 86400 < now - last_post then
      (true, s)
    else
      (false, s)

/-- The body of `post_daily_message` before its `try/except`: resolves the
channel, sends, and on success updates `last_post_time`.  A raising send
(or raising reaction add) is `Except.error`; an unresolvable channel is a
logged no-op, not an error.  Returns the settings and whether a message
was posted. -/
def post_daily_body (s : Settings) (postNow : Int) (channelFound sendOk : Bool) :
    Except String (Settings × Bool) :=
  if channelFound then
    if sendOk then
      Except.ok ({ s with last_post_time := some postNow }, true)
    else
      Except.error "send failed"
  else
    Except.ok (s, false)

/-- `post_daily_message`: the body wrapped in `try/except Exception`;
a raised error is logged and swallowed, leaving the settings unchanged. -/
def post_daily_message (s : Settings) (postNow : Int) (channelFound sendOk : Bool) :
    Settings × Bool :=
  match post_daily_body s postNow channelFound sendOk with
  | Except.ok r => r
  | Except.error _ => (s, false)

/-- In-memory scheduler state: the persisted settings plus the
non-persisted `_last_post_attempt` timestamp. -/
structure CogState where
  settings : Settings
  last_post_attempt : Option Int
deriving DecidableEq

/-- Outcome of one `daily_post` tick: the new state, whether a message was
posted, and whether the tick proceeded past the rate-limit check (reached
the `self._last_post_attempt = now` line). -/
structure TickResult where
  state : CogState
  posted : Bool
  passedRate : Bool
deriving DecidableEq

/-- The rate-limit guard: `self._last_post_attempt` is set and less than
300 seconds before `now`. -/
def rateLimited (lpa : Option Int) (now : Int) : Bool :=
  match lpa with
  | none => false
  | some t => decide (now - t < 300)

/-- One tick of the `daily_post` loop.  `lockHeld` models
`self._post_lock.locked()` observed at entry; `channelFound`/`sendOk`
parameterize the messaging collaborator inside `post_daily_message`. -/
def daily_post (st : CogState) (lockHeld : Bool) (now : Int)
    (channelFound sendOk : Bool) : TickResult :=
  if lockHeld then
    ⟨st, false, false⟩
  else if st.settings.channel_id = none then
    ⟨st, false, false⟩
  else if rateLimited st.last_post_attempt now then
    ⟨st, false, false⟩
  else if hourOf now = hourOf (target_time now) ∧
      minuteOf now = minuteOf (target_time now) then
    ⟨⟨(post_daily_message st.settings now channelFound sendOk).1, some now⟩,
      (post_daily_message st.settings now channelFound sendOk).2, true⟩
  else if (should_post st.settings now).1 then
    ⟨⟨(post_daily_message (should_post st.settings now).2 now channelFound sendOk).1,
        some now⟩,
      (post_daily_message (should_post st.settings now).2 now channelFound sendOk).2,
      true⟩
  else
    ⟨⟨(should_post st.settings now).2, some now⟩, false, true⟩

/-- The `meditation_records` table: rows `(user_id, meditation_date)`,
primary key on the pair. -/
abbrev RecordStore := Finset (Nat × Int)

/-- `INSERT OR REPLACE INTO meditation_records` with the full primary key:
set insertion. -/
def record (store : RecordStore) (u : Nat) (d : Int) : RecordStore :=
  insert (u, d) store

/-- `DELETE FROM meditation_records WHERE user_id = ? AND meditation_date = ?`. -/
def remove (store : RecordStore) (u : Nat) (d : Int) : RecordStore :=
  store.erase (u, d)

/-- `on_raw_reaction_add`.  Boolean parameters abstract the guards read
off the platform objects: whether the reactor is the bot itself, whether
the message author is the bot, whether the message text equals the daily
message, and whether the emoji is one of the two meditation emojis.
`now` is the event-processing instant, `created` the message's creation
instant.  Returns the store and whether the triggering reaction was
removed from the message.  `(now - created) / 86400` is
`timedelta.days`. -/
def on_raw_reaction_add (store : RecordStore) (uid botUid : Nat)
    (authorIsBot contentMatches emojiOk : Bool) (now created : Int) :
    RecordStore × Bool :=
  if uid = botUid then
    (store, false)
  else if !authorIsBot || !contentMatches then
    (store, false)
  else if !emojiOk then
    (store, false)
  else if 2 < (now - created) / 86400 then
    (store, true)
  else
    (record store uid (get_meditation_date created), false)

/-- `on_raw_reaction_remove`.  `stillHasReaction` abstracts the scan over
`message.reactions` checking whether the user still has a meditation
reaction on the message. -/
def on_raw_reaction_remove (store : RecordStore) (uid : Nat)
    (authorIsBot contentMatches emojiOk stillHasReaction : Bool)
    (created : Int) : RecordStore :=
  if !authorIsBot || !contentMatches then
    store
  else if !emojiOk then
    store
  else if stillHasReaction then
    store
  else
    remove store uid (get_meditation_date created)

/-- The loop body of `get_streak`: walk the descending date list,
extending the streak while each date is exactly one day before the
expected one. -/
def streakWalk : List Int → Nat → Int → Nat
  | [], streak, _ => streak
  | d :: rest, streak, expected =>
    if expected - 1 = d then streakWalk rest (streak + 1) d else streak

/-- The distinct meditation dates recorded for user `u`. -/
def userDayRows (store : RecordStore) (u : Nat) : Finset Int :=
  (store.filter (fun r => r.1 = u)).image Prod.snd

/-- `SELECT meditation_date FROM meditation_records WHERE user_id = ?
ORDER BY meditation_date DESC`. -/
def userDatesDesc (store : RecordStore) (u : Nat) : List Int :=
  (userDayRows store u).sort (· ≥ ·)

/-- `get_streak`: the current meditation streak for a user.  The
`current_date` argument is accepted (as in the source) but never read. -/
def get_streak (store : RecordStore) (u : Nat) (current_date : Int) : Nat :=
  match userDatesDesc store u with
  | [] => 0
  | d :: rest => streakWalk rest 1 d

/-! ## Helper lemmas -/

theorem target_time_emod (t : Int) : target_time t % 86400 = 27000 := by
  unfold target_time dateOf
  omega

theorem hourOf_target_time (t : Int) : hourOf (target_time t) = 7 := by
  unfold hourOf
  rw [target_time_emod]
  decide

theorem minuteOf_target_time (t : Int) : minuteOf (target_time t) = 30 := by
  unfold minuteOf
  rw [target_time_emod]
  decide

/-! ## Claims -/

/-- Claim C6: for every absolute instant `t`, if `t` falls at or after
07:30:00 UTC on calendar date `D` then `get_meditation_date t = D`, and
if `t` falls before 07:30:00 on date `D` then
`get_meditation_date t = D - 1`; in particular, at exactly 07:30:00.000
the same date `D` is returned. -/
theorem meditation_date_cutoff (t : Int) :
    (27000 ≤ t % 86400 → get_meditation_date t = dateOf t) ∧
    (t % 86400 < 27000 → get_meditation_date t = dateOf t - 1) := by
  unfold get_meditation_date target_time dateOf
  constructor
  · intro h
    rw [if_neg (by omega)]
  · intro h
    rw [if_pos (by omega)]

/-- Witness for C6, at the cutoff instant itself (07:30:00.000 on day 0)
and one second before it. -/
theorem meditation_date_cutoff_witness :
    (27000 ≤ (27000 : Int) % 86400 ∧ get_meditation_date 27000 = dateOf 27000) ∧
    ((26999 : Int) % 86400 < 27000 ∧ get_meditation_date 26999 = dateOf 26999 - 1) :=
  ⟨⟨by decide, (meditation_date_cutoff 27000).1 (by decide)⟩,
   ⟨by decide, (meditation_date_cutoff 26999).2 (by decide)⟩⟩

/-- Claim C1: in the steady state (`was_first_post` false, `last_post_time`
present), `should_post` returns false when fewer than 23.5 hours have
elapsed since the last post; otherwise it returns true exactly when
(`now` is at or past the same-date 07:30 target and the last post was
before that target) or more than 24 hours have elapsed.  In particular a
last post 20 hours ago yields no post, and a last post 25 hours ago
always yields a post. -/
theorem should_post_steady (s : Settings) (now last : Int)
    (hw : s.was_first_post = false) (hl : s.last_post_time = some last) :
    (now - last < 84600 → (should_post s now).1 = false) ∧
    (84600 ≤ now - last →
      ((should_post s now).1 = true ↔
        (target_time now ≤ now ∧ last < target_time now) ∨ 86400 < now - last)) ∧
    (now - last = 20 * 3600 → (should_post s now).1 = false) ∧
    (now - last = 25 * 3600 → (should_post s now).1 = true) := by
  unfold should_post
  rw [hl, hw]
  simp only [Bool.false_eq_true, if_false]
  refine ⟨?_, ?_, ?_, ?_⟩
  · intro h
    rw [if_pos (by omega)]
  · intro h
    rw [if_neg (by omega)]
    split_ifs with h1 h2 <;> simp_all
  · intro h
    rw [if_pos (by omega)]
  · intro h
    rw [if_neg (by omega)]
    split_ifs with h1 h2 <;> simp_all

/-- Witness for C1: last post 25 hours before `now = 90000` yields a post,
and last post 20 hours before yields none. -/
theorem should_post_steady_witness :
    (Settings.mk (some 1) "m" (some 0) false).was_first_post = false ∧
    (Settings.mk (some 1) "m" (some 0) false).last_post_time = some 0 ∧
    (90000 : Int) - 0 = 25 * 3600 ∧
    (should_post (Settings.mk (some 1) "m" (some 0) false) 90000).1 = true ∧
    (72000 : Int) - 0 = 20 * 3600 ∧
    (should_post (Settings.mk (some 1) "m" (some 0) false) 72000).1 = false :=
  ⟨rfl, rfl, by decide,
   (should_post_steady _ 90000 0 rfl rfl).2.2.2 (by decide),
   by decide,
   (should_post_steady _ 72000 0 rfl rfl).2.2.1 (by decide)⟩

/-- Claim C3: in the Posted-First state (`was_first_post` true,
`last_post_time` present), `should_post` posts and clears the flag exactly
when `now` is at or past the same-date 07:30 target and the last post was
before that target; in every other case it does not post and the flag
remains true. -/
theorem should_post_posted_first (s : Settings) (now last : Int)
    (hw : s.was_first_post = true) (hl : s.last_post_time = some last) :
    ((target_time now ≤ now ∧ last < target_time now) →
      (should_post s now).1 = true ∧ (should_post s now).2.was_first_post = false) ∧
    (¬(target_time now ≤ now ∧ last < target_time now) →
      (should_post s now).1 = false ∧ (should_post s now).2.was_first_post = true) := by
  unfold should_post
  rw [hl, hw]
  simp only [if_true]
  constructor
  · intro h
    rw [if_pos h]
    exact ⟨rfl, rfl⟩
  · intro h
    rw [if_neg h]
    exact ⟨rfl, hw⟩

/-- Witness for C3: at `now = 27000` (exactly the 07:30 target of day 0)
with a last post at instant 0, the Posted-First state posts and clears the
flag. -/
theorem should_post_posted_first_witness :
    (target_time 27000 ≤ 27000 ∧ (0 : Int) < target_time 27000) ∧
    (should_post (Settings.mk (some 1) "m" (some 0) true) 27000).1 = true ∧
    (should_post (Settings.mk (some 1) "m" (some 0) true) 27000).2.was_first_post = false :=
  ⟨by decide,
   (should_post_posted_first (Settings.mk (some 1) "m" (some 0) true) 27000 0 rfl rfl).1
     (by decide)⟩

/-- Claim C9: `record` is idempotent — two identical inserts leave the
store exactly as one does — and `remove` of an absent record is a no-op;
both are total functions (no error is raised). -/
theorem record_remove_idempotent (store : RecordStore) (u : Nat) (d : Int) :
    record (record store u d) u d = record store u d ∧
    ((u, d) ∉ store → remove store u d = store) := by
  constructor
  · exact Finset.insert_idem _ _
  · intro h
    exact Finset.erase_eq_of_not_mem h

/-- Witness for C9: removing the absent record `(1, 5)` from the empty
store leaves it empty. -/
theorem record_remove_idempotent_witness :
    (1, 5) ∉ (∅ : RecordStore) ∧ remove ∅ 1 5 = ∅ :=
  ⟨by decide, (record_remove_idempotent ∅ 1 5).2 (by decide)⟩

theorem should_post_preserves_lpt (s : Settings) (now : Int) :
    (should_post s now).2.last_post_time = s.last_post_time := by
  cases hl : s.last_post_time with
  | none => simp [should_post, hl]
  | some last =>
    simp only [should_post, hl]
    split_ifs <;> simp [hl]

/-- Claim C5: if the external send raises during a posting attempt, the
error is caught at the post boundary — `post_daily_message` returns
normally although its body raised — and leaves the settings, in
particular `last_post_time`, unchanged; consequently no error propagates
out of the `daily_post` tick and the tick's resulting `last_post_time`
equals the prior one, so a later eligible tick retries. -/
theorem send_failure_caught (s : Settings) (st : CogState) (lockHeld : Bool)
    (now : Int) :
    (post_daily_body s now true false).isOk = false ∧
    post_daily_message s now true false = (s, false) ∧
    (daily_post st lockHeld now true false).state.settings.last_post_time
      = st.settings.last_post_time := by
  refine ⟨rfl, rfl, ?_⟩
  unfold daily_post
  split_ifs <;>
    simp [post_daily_message, post_daily_body, should_post_preserves_lpt]

theorem daily_post_passes_records_attempt (st : CogState) (lockHeld : Bool)
    (now : Int) (cf so : Bool)
    (h : (daily_post st lockHeld now cf so).passedRate = true) :
    (daily_post st lockHeld now cf so).state.last_post_attempt = some now := by
  unfold daily_post at h ⊢
  split_ifs at h ⊢ <;> simp_all

/-- Claim C2: a tick that proceeds past the rate-limit check records its
instant as the last post attempt (before the post decision), and any tick
whose instant is less than 300 seconds after it does not proceed past the
rate-limit check — so two ticks less than 5 minutes apart never both pass
it. -/
theorem rate_limit_exclusion (st : CogState) (lock1 lock2 : Bool)
    (now1 now2 : Int) (cf1 so1 cf2 so2 : Bool)
    (h1 : (daily_post st lock1 now1 cf1 so1).passedRate = true)
    (h2 : now2 - now1 < 300) :
    (daily_post st lock1 now1 cf1 so1).state.last_post_attempt = some now1 ∧
    (daily_post (daily_post st lock1 now1 cf1 so1).state
        lock2 now2 cf2 so2).passedRate = false := by
  have hrec := daily_post_passes_records_attempt st lock1 now1 cf1 so1 h1
  refine ⟨hrec, ?_⟩
  rw [daily_post]
  split_ifs with g1 g2 g3
  · rfl
  · rfl
  · rfl
  all_goals
    exfalso
    rw [hrec] at g3
    simp only [rateLimited, decide_eq_true_eq] at g3
    omega

/-- Witness for C2: a tick at `now = 30000` from a fresh configured state
passes the rate-limit check and records its attempt, and a second tick
60 seconds later does not pass it. -/
theorem rate_limit_exclusion_witness :
    (daily_post ⟨⟨some 1, "m", none, false⟩, none⟩ false 30000 true true).passedRate
      = true ∧
    (30060 : Int) - 30000 < 300 ∧
    (daily_post ⟨⟨some 1, "m", none, false⟩, none⟩ false 30000 true
        true).state.last_post_attempt = some 30000 ∧
    (daily_post (daily_post ⟨⟨some 1, "m", none, false⟩, none⟩ false 30000 true
          true).state false 30060 true true).passedRate = false :=
  ⟨by decide, by decide,
   (rate_limit_exclusion ⟨⟨some 1, "m", none, false⟩, none⟩ false false 30000 30060
      true true true true (by decide) (by decide)).1,
   (rate_limit_exclusion ⟨⟨some 1, "m", none, false⟩, none⟩ false false 30000 30060
      true true true true (by decide) (by decide)).2⟩

/-- Claim C4 counterexample: starting from the Uninitialized state
(`last_post_time` absent), a first tick falling in the exact 07:30 target
minute (`now = 27000`) posts through the fast path and leaves
`was_first_post` false — so the first tick does not always set
`was_first_post` to true. -/
theorem first_tick_fast_path_counterexample :
    (⟨⟨some 1, "m", none, false⟩, none⟩ : CogState).settings.last_post_time = none ∧
    (daily_post ⟨⟨some 1, "m", none, false⟩, none⟩ false 27000 true true).posted
      = true ∧
    (daily_post ⟨⟨some 1, "m", none, false⟩, none⟩ false 27000 true
        true).state.settings.was_first_post = false := by
  refine ⟨rfl, ?_, ?_⟩ <;> decide

/-- Claim C4 (amended): starting from the Uninitialized state
(`last_post_time` absent) with a channel configured, the lock free, no
prior attempt recorded, and a resolving channel and succeeding send, the
first tick always posts and sets `last_post_time`; it sets
`was_first_post` to true when it falls outside the exact 07:30 target
minute, while a tick inside that minute posts through the fast path and
leaves `was_first_post` unchanged. -/
theorem first_tick_posts (st : CogState) (now : Int)
    (hlpt : st.settings.last_post_time = none)
    (hch : ¬st.settings.channel_id = none)
    (hlpa : st.last_post_attempt = none) :
    (daily_post st false now true true).posted = true ∧
    (daily_post st false now true true).state.settings.last_post_time = some now ∧
    (¬(hourOf now = 7 ∧ minuteOf now = 30) →
      (daily_post st false now true true).state.settings.was_first_post = true) ∧
    ((hourOf now = 7 ∧ minuteOf now = 30) →
      (daily_post st false now true true).state.settings.was_first_post
        = st.settings.was_first_post) := by
  unfold daily_post
  simp only [hourOf_target_time, minuteOf_target_time]
  by_cases hmin : hourOf now = 7 ∧ minuteOf now = 30
  · simp [rateLimited, hlpa, hch, hmin, post_daily_message, post_daily_body]
  · simp [rateLimited, hlpa, hch, hmin, should_post, hlpt, post_daily_message,
      post_daily_body]

/-- Witness for the amended C4: a first tick at `now = 30000` (08:20, not
the target minute) posts, records `last_post_time`, and sets
`was_first_post` to true. -/
theorem first_tick_posts_witness :
    (⟨⟨some 1, "m", none, false⟩, none⟩ : CogState).settings.last_post_time = none ∧
    (daily_post ⟨⟨some 1, "m", none, false⟩, none⟩ false 30000 true true).posted
      = true ∧
    (daily_post ⟨⟨some 1, "m", none, false⟩, none⟩ false 30000 true
        true).state.settings.last_post_time = some 30000 ∧
    (daily_post ⟨⟨some 1, "m", none, false⟩, none⟩ false 30000 true
        true).state.settings.was_first_post = true :=
  ⟨rfl,
   (first_tick_posts ⟨⟨some 1, "m", none, false⟩, none⟩ 30000 rfl (by decide) rfl).1,
   (first_tick_posts ⟨⟨some 1, "m", none, false⟩, none⟩ 30000 rfl (by decide)
      rfl).2.1,
   (first_tick_posts ⟨⟨some 1, "m", none, false⟩, none⟩ 30000 rfl (by decide)
      rfl).2.2.1 (by decide)⟩

/-- Claim C8 counterexample: a qualifying check-in reaction on a prompt
message 2.5 days old (`now - created = 216000 > 2 * 86400`, so the
message is older than 2 calendar days) is accepted — the record is
created and the reaction is not removed — because the code rejects only
when the whole-day count (`timedelta.days`) of the age exceeds 2. -/
theorem stale_reaction_counterexample :
    (216000 : Int) - 0 > 2 * 86400 ∧
    on_raw_reaction_add ∅ 1 0 true true true 216000 0
      = (record ∅ 1 (get_meditation_date 0), false) := by
  refine ⟨by decide, ?_⟩
  rfl

/-- Claim C8 (amended): a qualifying check-in reaction event (the reactor
is not the bot, and the prompt-message and emoji guards pass) on a
message whose age is at least 3 days — equivalently whose
`timedelta.days` exceeds 2 — is rejected: no record is created and the
triggering reaction is removed from the message. -/
theorem stale_reaction_rejected (store : RecordStore) (uid botUid : Nat)
    (now created : Int) (hbot : uid ≠ botUid)
    (hage : 3 * 86400 ≤ now - created) :
    on_raw_reaction_add store uid botUid true true true now created
      = (store, true) := by
  simp [on_raw_reaction_add, hbot, show 2 < (now - created) / 86400 by omega]

/-- Witness for the amended C8: a reaction on a message 300000 seconds
(about 3.5 days) old is rejected with the reaction removed. -/
theorem stale_reaction_rejected_witness :
    (1 : Nat) ≠ 0 ∧ 3 * 86400 ≤ (300000 : Int) - 0 ∧
    on_raw_reaction_add ∅ 1 0 true true true 300000 0 = (∅, true) :=
  ⟨by decide, by decide,
   stale_reaction_rejected ∅ 1 0 300000 0 (by decide) (by decide)⟩

/-- Claim C10: the logical day stored for a check-in is computed from the
prompt message's creation instant, not from the reaction event's own
timestamp: a qualifying add event records `(uid, get_meditation_date
created)` regardless of the event instant `now` within the acceptance
window, and a qualifying remove event deletes that same key — so every
user reacting to the same prompt message is attributed the same logical
day, for both creation and deletion. -/
theorem attribution_from_message_creation (store : RecordStore)
    (uid botUid : Nat) (now created : Int) (hbot : uid ≠ botUid)
    (hage : (now - created) / 86400 ≤ 2) :
    on_raw_reaction_add store uid botUid true true true now created
      = (record store uid (get_meditation_date created), false) ∧
    on_raw_reaction_remove store uid true true true false created
      = remove store uid (get_meditation_date created) := by
  constructor
  · simp [on_raw_reaction_add, hbot, show ¬(2 < (now - created) / 86400) by omega]
  · simp [on_raw_reaction_remove]

theorem sort_desc_four (D : Int) :
    Finset.sort (· ≥ ·) ({D, D - 1, D - 2, D - 5} : Finset Int)
      = [D, D - 1, D - 2, D - 5] := by
  have h2 : Finset.sort (· ≥ ·) ({D - 2, D - 5} : Finset Int) = [D - 2, D - 5] := by
    rw [Finset.sort_insert (· ≥ ·)
        (fun b hb => by rw [Finset.mem_singleton] at hb; omega)
        (by rw [Finset.mem_singleton]; omega),
      Finset.sort_singleton]
  have h1 : Finset.sort (· ≥ ·) ({D - 1, D - 2, D - 5} : Finset Int)
      = [D - 1, D - 2, D - 5] := by
    rw [Finset.sort_insert (· ≥ ·)
        (fun b hb => by
          simp only [Finset.mem_insert, Finset.mem_singleton] at hb
          omega)
        (by simp only [Finset.mem_insert, Finset.mem_singleton]; omega),
      h2]
  rw [Finset.sort_insert (· ≥ ·)
      (fun b hb => by
        simp only [Finset.mem_insert, Finset.mem_singleton] at hb
        omega)
      (by simp only [Finset.mem_insert, Finset.mem_singleton]; omega),
    h1]

/-- Claim C7: `get_streak` returns 0 for a user with no records; for a
user whose recorded logical days are exactly `{D, D-1, D-2, D-5}` it
returns 3 (the walk breaks at the gap before `D-5`); and its result does
not depend on the reference day passed in, however stale the most recent
record is. -/
theorem get_streak_spec (store : RecordStore) (u : Nat) (cur cur2 D : Int) :
    (userDayRows store u = ∅ → get_streak store u cur = 0) ∧
    (userDayRows store u = {D, D - 1, D - 2, D - 5} → get_streak store u cur = 3) ∧
    get_streak store u cur = get_streak store u cur2 := by
  refine ⟨?_, ?_, rfl⟩
  · intro h
    unfold get_streak userDatesDesc
    rw [h, Finset.sort_empty]
  · intro h
    unfold get_streak userDatesDesc
    rw [h, sort_desc_four]
    show streakWalk [D - 1, D - 2, D - 5] 1 D = 3
    simp only [streakWalk]
    rw [if_pos trivial,
      if_pos (show D - 1 - 1 = D - 2 by omega),
      if_neg (show ¬(D - 2 - 1 = D - 5) by omega)]

/-- Witness for C7: user 1 has records on days 10, 9, 8, 5 and a streak
of 3 under two different reference days; user 2 has no records and a
streak of 0. -/
theorem get_streak_spec_witness :
    userDayRows {(1, 10), (1, 9), (1, 8), (1, 5)} 1 = {10, 10 - 1, 10 - 2, 10 - 5} ∧
    get_streak {(1, 10), (1, 9), (1, 8), (1, 5)} 1 0 = 3 ∧
    get_streak {(1, 10), (1, 9), (1, 8), (1, 5)} 1 9999 = 3 ∧
    userDayRows {(1, 10), (1, 9), (1, 8), (1, 5)} 2 = ∅ ∧
    get_streak {(1, 10), (1, 9), (1, 8), (1, 5)} 2 0 = 0 :=
  ⟨by decide,
   (get_streak_spec {(1, 10), (1, 9), (1, 8), (1, 5)} 1 0 0 10).2.1 (by decide),
   (get_streak_spec {(1, 10), (1, 9), (1, 8), (1, 5)} 1 9999 0 10).2.1 (by decide),
   by decide,
   (get_streak_spec {(1, 10), (1, 9), (1, 8), (1, 5)} 2 0 0 10).1 (by decide)⟩

/-- Witness for C10: two users reacting to the same prompt message at
different instants inside the acceptance window are both attributed the
message-creation day `get_meditation_date 100000`, and a remove event
deletes that same key. -/
theorem attribution_from_message_creation_witness :
    (1 : Nat) ≠ 0 ∧ ((130000 : Int) - 100000) / 86400 ≤ 2 ∧
    ((250000 : Int) - 100000) / 86400 ≤ 2 ∧
    on_raw_reaction_add ∅ 1 0 true true true 130000 100000
      = (record ∅ 1 (get_meditation_date 100000), false) ∧
    on_raw_reaction_add ∅ 2 0 true true true 250000 100000
      = (record ∅ 2 (get_meditation_date 100000), false) ∧
    on_raw_reaction_remove ∅ 1 true true true false 100000
      = remove ∅ 1 (get_meditation_date 100000) :=
  ⟨by decide, by decide, by decide,
   (attribution_from_message_creation ∅ 1 0 130000 100000 (by decide) (by decide)).1,
   (attribution_from_message_creation ∅ 2 0 250000 100000 (by decide) (by decide)).1,
   (attribution_from_message_creation ∅ 1 0 130000 100000 (by decide) (by decide)).2⟩

end Meditation
